import Mathlib

set_option maxRecDepth 40000

/-!
Verification of the web-page archiving engine of the mirra repository
(src/tools/scraper.js and the near-duplicate rewriter in src/cli.js).

The JavaScript source is shallowly embedded: pure helpers become Lean
functions, the effectful pipeline becomes a function of an explicit
environment (robots outcome, navigation outcome, per-URL fetch outcome,
on-disk file set, per-call clock) that also returns the list of performed
effects.  Machine arithmetic (the md5 filename hash) is modelled on Nat
with explicit reduction modulo 2 ^ 32.
-/

/-! ## Generic string and list helpers -/

/-- Single-quote character (written by code to avoid escaping). -/
def squote : Char := Char.ofNat 39

/-- Double-quote character. -/
def dquote : Char := Char.ofNat 34

/-- Strip an exact prefix from a character list, returning the remainder. -/
def stripPre : List Char → List Char → Option (List Char)
  | [], s => some s
  | _ :: _, [] => none
  | p :: ps, c :: cs => if p == c then stripPre ps cs else none

/-- Whether the needle occurs as a contiguous run inside the haystack.
Models the JavaScript String.prototype.includes used by checkRobotsTxt. -/
def containsSub (needle : List Char) : List Char → Bool
  | [] => needle.isPrefixOf []
  | c :: rest => needle.isPrefixOf (c :: rest) || containsSub needle rest

/-- String version of containsSub: hay.includes needle. -/
def hasSubstr (hay needle : String) : Bool :=
  containsSub needle.data hay.data

/-- Node path.join restricted to already-normalized segments: joins with a
slash.  The source only ever joins plain directory and file names. -/
def joinPath (a b : String) : String := a ++ "/" ++ b

/-! ## Simplified WHATWG URL accessors

The source calls new URL(u) on absolute http(s) URLs produced by the
in-page extractor and reads protocol, hostname and pathname.  We model
those accessors for scheme://host/path style URLs (no userinfo). -/

/-- Scheme of a URL including the trailing colon, lowercased; none when the
string has no colon (the URL constructor would throw). -/
def urlProtocol (url : String) : Option String :=
  let pre := url.data.takeWhile (fun c => c ≠ ':')
  if pre.length < url.data.length ∧ pre ≠ [] then
    some (String.mk (pre.map Char.toLower ++ [':']))
  else none

/-- Characters that end the host portion of a URL. -/
def hostEnd (c : Char) : Bool := c == '/' || c == '?' || c == '#' || c == ':'

/-- The remainder of the URL after the "://" separator, when present. -/
def afterSchemeSep : List Char → Option (List Char)
  | ':' :: '/' :: '/' :: rest => some rest
  | _ :: rest => afterSchemeSep rest
  | [] => none

/-- Hostname (without port) of an absolute URL. -/
def urlHostname (url : String) : String :=
  match afterSchemeSep url.data with
  | some r => String.mk (r.takeWhile (fun c => !hostEnd c))
  | none => ""

/-- Pathname of an absolute URL: the part after the host up to a query or
fragment, "/" when the URL has no path. -/
def urlPathname (url : String) : String :=
  match afterSchemeSep url.data with
  | some r =>
    let rest := r.dropWhile (fun c => c ≠ '/' && c ≠ '?' && c ≠ '#')
    match rest with
    | '/' :: _ => String.mk (rest.takeWhile (fun c => c ≠ '?' && c ≠ '#'))
    | _ => "/"
  | none => "/"

/-! ## Association lists with JavaScript object semantics

assetMapping and the statistics record are plain JavaScript objects: keyed
assignment overwrites in place, Object.entries preserves insertion order. -/

/-- Object property read: value of the first entry with the given key. -/
def mapGet {β : Type} (m : List (String × β)) (k : String) : Option β :=
  (m.find? (fun p => p.1 == k)).map (fun p => p.2)

/-- Object property read with a default. -/
def mapGetD {β : Type} (m : List (String × β)) (k : String) (d : β) : β :=
  (mapGet m k).getD d

/-- Object property assignment: overwrite in place, else append. -/
def mapSet {β : Type} : List (String × β) → String → β → List (String × β)
  | [], k, v => [(k, v)]
  | p :: rest, k, v => if p.1 == k then (k, v) :: rest else p :: mapSet rest k v

/-! ## MD5 over Nat (crypto.createHash of the source)

Faithful RFC 1321 MD5; 32-bit words are Nat values reduced modulo
2 ^ 32 = 4294967296.  The source hex-encodes the digest and keeps the
first 8 characters. -/

/-- 32-bit masked bitwise complement. -/
def not32 (x : Nat) : Nat := x ^^^ 4294967295

/-- 32-bit left rotation (0 < s < 32 for every MD5 shift amount). -/
def rotl32 (x s : Nat) : Nat :=
  (((x % 4294967296) <<< s) ||| ((x % 4294967296) >>> (32 - s))) % 4294967296

/-- The 64 MD5 sine-derived round constants. -/
def md5K : List Nat :=
  [0xd76aa478, 0xe8c7b756, 0x242070db, 0xc1bdceee,
   0xf57c0faf, 0x4787c62a, 0xa8304613, 0xfd469501,
   0x698098d8, 0x8b44f7af, 0xffff5bb1, 0x895cd7be,
   0x6b901122, 0xfd987193, 0xa679438e, 0x49b40821,
   0xf61e2562, 0xc040b340, 0x265e5a51, 0xe9b6c7aa,
   0xd62f105d, 0x02441453, 0xd8a1e681, 0xe7d3fbc8,
   0x21e1cde6, 0xc33707d6, 0xf4d50d87, 0x455a14ed,
   0xa9e3e905, 0xfcefa3f8, 0x676f02d9, 0x8d2a4c8a,
   0xfffa3942, 0x8771f681, 0x6d9d6122, 0xfde5380c,
   0xa4beea44, 0x4bdecfa9, 0xf6bb4b60, 0xbebfbc70,
   0x289b7ec6, 0xeaa127fa, 0xd4ef3085, 0x04881d05,
   0xd9d4d039, 0xe6db99e5, 0x1fa27cf8, 0xc4ac5665,
   0xf4292244, 0x432aff97, 0xab9423a7, 0xfc93a039,
   0x655b59c3, 0x8f0ccc92, 0xffeff47d, 0x85845dd1,
   0x6fa87e4f, 0xfe2ce6e0, 0xa3014314, 0x4e0811a1,
   0xf7537e82, 0xbd3af235, 0x2ad7d2bb, 0xeb86d391]

/-- The 64 MD5 per-round left-rotation amounts. -/
def md5S : List Nat :=
  [7, 12, 17, 22, 7, 12, 17, 22, 7, 12, 17, 22, 7, 12, 17, 22,
   5, 9, 14, 20, 5, 9, 14, 20, 5, 9, 14, 20, 5, 9, 14, 20,
   4, 11, 16, 23, 4, 11, 16, 23, 4, 11, 16, 23, 4, 11, 16, 23,
   6, 10, 15, 21, 6, 10, 15, 21, 6, 10, 15, 21, 6, 10, 15, 21]

/-- MD5 chaining state: four 32-bit words. -/
structure MD5State where
  a : Nat
  b : Nat
  c : Nat
  d : Nat
deriving Repr, DecidableEq

/-- Initial MD5 state. -/
def md5Init : MD5State :=
  { a := 0x67452301, b := 0xefcdab89, c := 0x98badcfe, d := 0x10325476 }

/-- One of the 64 MD5 steps; M is the 16-word message block. -/
def md5Step (M : List Nat) (st : MD5State) (i : Nat) : MD5State :=
  let f :=
    if i < 16 then (st.b &&& st.c) ||| (not32 st.b &&& st.d)
    else if i < 32 then (st.d &&& st.b) ||| (not32 st.d &&& st.c)
    else if i < 48 then st.b ^^^ st.c ^^^ st.d
    else st.c ^^^ (st.b ||| not32 st.d)
  let g :=
    if i < 16 then i
    else if i < 32 then (5 * i + 1) % 16
    else if i < 48 then (3 * i + 5) % 16
    else (7 * i) % 16
  let tmp := (st.a + f + md5K.getD i 0 + M.getD g 0) % 4294967296
  let nb := (st.b + rotl32 tmp (md5S.getD i 0)) % 4294967296
  { a := st.d, b := nb, c := st.b, d := st.c }

/-- Decode a 64-byte chunk into 16 little-endian 32-bit words. -/
def md5Words (chunk : List Nat) : List Nat :=
  (List.range 16).map (fun i =>
    chunk.getD (4 * i) 0 + 256 * chunk.getD (4 * i + 1) 0 +
    65536 * chunk.getD (4 * i + 2) 0 + 16777216 * chunk.getD (4 * i + 3) 0)

/-- Process one 64-byte chunk. -/
def md5Chunk (st : MD5State) (chunk : List Nat) : MD5State :=
  let M := md5Words chunk
  let r := (List.range 64).foldl (md5Step M) st
  { a := (st.a + r.a) % 4294967296, b := (st.b + r.b) % 4294967296,
    c := (st.c + r.c) % 4294967296, d := (st.d + r.d) % 4294967296 }

/-- Structural worker for chunk splitting; the fuel bounds the number of
chunks (each chunk consumes at least one byte). -/
def md5ChunksGo : Nat → List Nat → List (List Nat)
  | 0, _ => []
  | _ + 1, [] => []
  | fuel + 1, x :: xs => ((x :: xs).take 64) :: md5ChunksGo fuel ((x :: xs).drop 64)

/-- Split a padded message into 64-byte chunks. -/
def md5Chunks (l : List Nat) : List (List Nat) := md5ChunksGo l.length l

/-- RFC 1321 padding: 0x80, zeros to 56 mod 64, 8-byte little-endian bit
length. -/
def md5Pad (msg : List Nat) : List Nat :=
  let len := msg.length
  let k := (64 + 56 - ((len + 1) % 64)) % 64
  let bitLen := (len * 8) % (2 ^ 64)
  msg ++ [128] ++ List.replicate k 0 ++
    (List.range 8).map (fun i => (bitLen >>> (8 * i)) % 256)

/-- Lowercase hexadecimal digit. -/
def hexDigit (n : Nat) : Char :=
  "0123456789abcdef".data.getD n '0'

/-- Little-endian hex encoding of one 32-bit word (8 characters). -/
def word2hexLE (w : Nat) : List Char :=
  [hexDigit ((w % 256) / 16), hexDigit (w % 16),
   hexDigit (((w >>> 8) % 256) / 16), hexDigit ((w >>> 8) % 16),
   hexDigit (((w >>> 16) % 256) / 16), hexDigit ((w >>> 16) % 16),
   hexDigit (((w >>> 24) % 256) / 16), hexDigit ((w >>> 24) % 16)]

/-- Full 32-character MD5 hex digest of a byte list. -/
def md5hexChars (msg : List Nat) : List Char :=
  let st := (md5Chunks (md5Pad msg)).foldl md5Chunk md5Init
  word2hexLE st.a ++ word2hexLE st.b ++ word2hexLE st.c ++ word2hexLE st.d

/-- Bytes of a string (the strings hashed by the source are ASCII). -/
def strBytes (s : String) : List Nat := s.data.map Char.toNat

/-- MD5 hex digest of a string. -/
def md5hex (s : String) : String := String.mk (md5hexChars (strBytes s))

/-- First 8 hex characters of the digest, as a character list; the
hash.substring of AssetNamer.generateFilename. -/
def md5hex8L (s : List Char) : List Char :=
  (md5hexChars (s.map Char.toNat)).take 8

/-! ## Node path helpers used by AssetNamer

path.extname, path.basename(p, ext) and the sanitizing replace of
AssetNamer.generateFilename, modelled on POSIX semantics as implemented
by Node (trailing slashes skipped, suffix stripped only when it is a
proper suffix of the final component). -/

/-- Drop trailing slashes (Node treats "a/b/" like "a/b"). -/
def dropTrailSlashes (p : List Char) : List Char :=
  (p.reverse.dropWhile (fun c => c == '/')).reverse

/-- Final path component after the last slash, trailing slashes ignored. -/
def lastComp (p : List Char) : List Char :=
  let q := dropTrailSlashes p
  (q.reverse.takeWhile (fun c => c ≠ '/')).reverse

/-- Index of the last dot of a character list, if any. -/
def lastDotIdx (b : List Char) : Option Nat :=
  match b.reverse.findIdx? (fun c => c == '.') with
  | some j => some (b.length - 1 - j)
  | none => none

/-- Node path.extname: extension of the final component, empty when there
is no dot, when the only dot starts the component (dotfiles), or for the
component "..". -/
def extnameOf (p : String) : String :=
  let b := lastComp p.data
  match lastDotIdx b with
  | none => ""
  | some i =>
    if i == 0 then ""
    else if b == ['.', '.'] then ""
    else String.mk (b.drop i)

/-- Node path.basename(p, ext): final path component with the suffix ext
removed, unless the component equals ext itself. -/
def jsBasename (p ext : String) : String :=
  let c := lastComp p.data
  if c == ext.data then String.mk c
  else if ext.data ≠ [] ∧ ext.data.isSuffixOf c then
    String.mk (c.take (c.length - ext.data.length))
  else String.mk c

/-- CONFIG.DEFAULT_EXTENSIONS with the final .bin fallback. -/
def defaultExt (assetType : String) : String :=
  if assetType == "images" then ".jpg"
  else if assetType == "stylesheets" then ".css"
  else if assetType == "scripts" then ".js"
  else if assetType == "fonts" then ".woff2"
  else ".bin"

/-- The sanitizing replace: characters outside [a-zA-Z0-9.-] become an
underscore. -/
def sanitizeChar (c : Char) : Char :=
  if ('a' ≤ c ∧ c ≤ 'z') ∨ ('A' ≤ c ∧ c ≤ 'Z') ∨ ('0' ≤ c ∧ c ≤ '9') ∨
      c = '.' ∨ c = '-' then c else '_'

/-- The extension chosen by generateFilename: path extension, else the
category default, else .bin. -/
def extFor (pathname assetType : String) : String :=
  let e := extnameOf pathname
  if e == "" then defaultExt assetType else e

/-- The sanitized basename chosen by generateFilename, with the asset
fallback for an empty basename. -/
def baseFor (pathname assetType : String) : List Char :=
  let base0 := jsBasename pathname (extFor pathname assetType)
  let base1 := if base0 == "" then "asset" else base0
  base1.data.map sanitizeChar

/-- Character-list core of AssetNamer.generateFilename.  now is the value
of Date.now() at the call. -/
def generateFilenameL (pathname : List Char) (assetType : String) (now : Nat) :
    List Char :=
  (baseFor (String.mk pathname) assetType ++
    '-' :: md5hex8L (pathname ++ (toString now).data)) ++
  (extFor (String.mk pathname) assetType).data

/-- AssetNamer.generateFilename from src/tools/scraper.js: sanitized
basename, a dash, the first 8 hex characters of md5(pathname + Date.now()),
then the extension (taken from the path or the category default). -/
def generateFilename (pathname assetType : String) (now : Nat) : String :=
  String.mk (generateFilenameL pathname.data assetType now)

/-! ## Asset model and AssetManager -/

/-- One reference produced by PageExtractor.extractAssets: canonical
absolute URL plus the literal attribute text it came from (img and script
elements carry originalSrc, link elements carry originalHref).  The alt
text of images is bookkeeping only and is not modelled. -/
structure RawAsset where
  url : String
  originalSrc : Option String := none
  originalHref : Option String := none
deriving Repr, DecidableEq

/-- The four category lists returned by extractAssets. -/
structure AssetsByCat where
  images : List RawAsset := []
  stylesheets : List RawAsset := []
  scripts : List RawAsset := []
  fonts : List RawAsset := []
deriving Repr, DecidableEq

/-- A flattened asset tagged with its category directory name. -/
structure AssetRef where
  url : String
  originalSrc : Option String := none
  originalHref : Option String := none
  type : String
deriving Repr, DecidableEq

/-- Tag a raw asset with its category. -/
def toRef (ty : String) (r : RawAsset) : AssetRef :=
  { url := r.url, originalSrc := r.originalSrc, originalHref := r.originalHref,
    type := ty }

/-- AssetManager.flattenAssets: images, stylesheets, scripts, fonts in
that order, each tagged with its directory name. -/
def flattenAssets (assets : AssetsByCat) : List AssetRef :=
  assets.images.map (toRef "images") ++
  assets.stylesheets.map (toRef "stylesheets") ++
  assets.scripts.map (toRef "scripts") ++
  assets.fonts.map (toRef "fonts")

/-- AssetManager.removeDuplicates: keep an element exactly when its index
equals the index of the first element with the same url. -/
def removeDuplicates (assets : List AssetRef) : List AssetRef :=
  (assets.enum.filter
    (fun p => assets.findIdx (fun b => b.url == p.2.url) == p.1)).map
    (fun p => p.2)

/-- The literal strings registered into the mapping for one downloaded
asset, in assignment order: canonical url, then originalSrc and
originalHref when present. -/
def litsOf (a : AssetRef) : List String :=
  a.url :: (a.originalSrc.toList ++ a.originalHref.toList)

/-- Effects the pipeline performs against the outside world. -/
inductive Event
  | mkdirs
  | robotsLoad
  | navigate
  | assetFetch (url : String)
  | writeFile (p : String)
deriving Repr, DecidableEq

/-- Outcome of loading and evaluating robots.txt. -/
inductive RobotsOutcome
  | allowed
  | disallowed
  | loadError (msg : String)
deriving Repr, DecidableEq

/-- Rendered page data returned by a successful navigation. -/
structure PageData where
  title : String
  html : String
  assets : AssetsByCat
deriving Repr, DecidableEq

/-- The environment a scrape runs against: robots policy outcome,
navigation outcome, the set of files already on disk, per-URL fetch
outcome (ok with a byte size, or an error message covering non-2xx,
network failure and timeout), Date.now() at the i-th unique asset,
screenshot capture outcomes, Date.now() at screenshot time, and the
elapsed time recorded into statistics. -/
structure ScrapeEnv where
  robots : RobotsOutcome := .allowed
  navigation : Except String PageData := .error "unknown"
  existsOnDisk : String → Bool := fun _ => false
  fetch : String → Except String Nat := fun _ => .error "unreachable"
  timeAt : Nat → Nat := fun _ => 0
  desktopShotOk : Bool := true
  mobileShotOk : Bool := true
  shotTime : Nat := 0
  elapsed : Nat := 0

/-- Successful return value of AssetManager.downloadSingleAsset. -/
structure DlOk where
  filename : String
  relativePath : String
  size : Nat
deriving Repr, DecidableEq

/-- The category-relative local path of an asset downloaded at time t. -/
def relPathOf (a : AssetRef) (t : Nat) : String :=
  joinPath (joinPath "assets" a.type)
    (generateFilename (urlPathname a.url) a.type t)

/-- AssetManager.downloadSingleAsset: compute the target filename from the
URL path and the clock, skip the fetch when the file already exists
(success, size 0), otherwise fetch and write; a non-2xx response or fetch
failure is an error.  Also reports the performed effects. -/
def downloadSingleAsset (env : ScrapeEnv) (outputDir : String) (a : AssetRef)
    (now : Nat) : Except String DlOk × List Event :=
  let filename := generateFilename (urlPathname a.url) a.type now
  let localPath := joinPath (joinPath (joinPath outputDir "assets") a.type) filename
  let relPath := joinPath (joinPath "assets" a.type) filename
  if env.existsOnDisk localPath then
    (.ok { filename := filename, relativePath := relPath, size := 0 }, [])
  else
    match env.fetch a.url with
    | .ok size =>
      (.ok { filename := filename, relativePath := relPath, size := size },
       [.assetFetch a.url, .writeFile localPath])
    | .error e => (.error e, [.assetFetch a.url])

/-- The statistics object of AssetManager.downloadAndMapAssets. -/
structure DlStats where
  total : Nat := 0
  downloaded : Nat := 0
  failed : Nat := 0
deriving Repr, DecidableEq

/-- Register every literal of a successfully downloaded asset, in source
order: mapping[url], then originalSrc and originalHref when present. -/
def setLits (m : List (String × String)) (ks : List String) (v : String) :
    List (String × String) :=
  ks.foldl (fun m k => mapSet m k v) m

/-- The download loop of downloadAndMapAssets: on success register all
literals and count downloaded, on failure count failed and continue; the
clock advances with the asset index. -/
def downloadLoop (env : ScrapeEnv) (outputDir : String) :
    List AssetRef → Nat → List (String × String) → DlStats →
    List (String × String) × DlStats × List Event
  | [], _, m, s => (m, s, [])
  | a :: rest, i, m, s =>
    match downloadSingleAsset env outputDir a (env.timeAt i) with
    | (.ok r, evs) =>
      let res := downloadLoop env outputDir rest (i + 1)
        (setLits m (litsOf a) r.relativePath)
        { s with downloaded := s.downloaded + 1 }
      (res.1, res.2.1, evs ++ res.2.2)
    | (.error _, evs) =>
      let res := downloadLoop env outputDir rest (i + 1) m
        { s with failed := s.failed + 1 }
      (res.1, res.2.1, evs ++ res.2.2)

/-- AssetManager.downloadAndMapAssets: flatten, deduplicate by canonical
URL, then download each unique asset once. -/
def downloadAndMapAssets (env : ScrapeEnv) (outputDir : String)
    (assets : AssetsByCat) :
    List (String × String) × DlStats × List Event :=
  let uniq := removeDuplicates (flattenAssets assets)
  downloadLoop env outputDir uniq 0 []
    { total := uniq.length, downloaded := 0, failed := 0 }

/-! ## ScreenshotManager -/

/-- The two screenshot slots; each nullable. -/
structure ScreenshotPair where
  desktop : Option String := none
  mobile : Option String := none
deriving Repr, DecidableEq

/-- ScreenshotManager.captureScreenshots: a single try block captures the
desktop shot, assigns its slot, then captures the mobile shot and assigns
its slot; any raise jumps to the shared catch, which returns the slots
assigned so far.  A desktop failure therefore also skips the mobile
capture. -/
def captureScreenshots (env : ScrapeEnv) (outputDir hostname : String) :
    ScreenshotPair × List Event :=
  let dir := joinPath outputDir "screenshots"
  let ts := env.shotTime
  let dp := joinPath dir (hostname ++ "-desktop-" ++ toString ts ++ ".png")
  let mp := joinPath dir (hostname ++ "-mobile-" ++ toString ts ++ ".png")
  if env.desktopShotOk then
    if env.mobileShotOk then
      ({ desktop := some dp, mobile := some mp }, [.writeFile dp, .writeFile mp])
    else ({ desktop := some dp, mobile := none }, [.writeFile dp])
  else ({ desktop := none, mobile := none }, [])

/-! ## WebScraper pipeline -/

/-- The parameters of WebScraper that influence observable behavior in
this model.  userAgent, viewport sizes and the navigation timeout only
parameterize the opaque environment outcomes. -/
structure ScrapeParams where
  url : String
  outputDir : String := "./scraped-data"
  respectRobots : Bool := true
  downloadAssets : Bool := true
  takeScreenshots : Bool := true
deriving Repr, DecidableEq

/-- The result object assembled by WebScraper. -/
structure ScrapeResult where
  success : Bool
  url : String
  accessible : Bool
  scrapingAllowed : Bool
  outputDir : String
  html : Option String
  title : Option String
  screenshots : ScreenshotPair
  assetMapping : List (String × String)
  statistics : List (String × Nat)
  message : String
deriving Repr, DecidableEq

/-- The statistics object as initialized in the WebScraper constructor. -/
def initStats : List (String × Nat) :=
  [("totalAssets", 0), ("downloadedAssets", 0), ("failedAssets", 0),
   ("processingTime", 0)]

/-- The result object as initialized in the WebScraper constructor. -/
def initResult (p : ScrapeParams) : ScrapeResult :=
  { success := false, url := p.url, accessible := false,
    scrapingAllowed := false, outputDir := p.outputDir, html := none,
    title := none, screenshots := {}, assetMapping := [],
    statistics := initStats, message := "" }

/-- The catch branch of WebScraper.scrape: record the message and the
processing time on the result accumulated so far. -/
def errResult (r : ScrapeResult) (emsg : String) (env : ScrapeEnv) :
    ScrapeResult :=
  { r with message := "Scraping error: " ++ emsg,
           statistics := mapSet r.statistics "processingTime" env.elapsed }

/-- WebScraper.checkRobotsTxt: nothing when respectRobots is off;
otherwise load robots.txt and throw on disallow.  The catch rethrows any
error whose message contains the substring "blocked" (which matches its
own disallow error) and otherwise logs and proceeds. -/
def checkRobotsTxt (p : ScrapeParams) (env : ScrapeEnv) :
    Except String Unit × List Event :=
  if !p.respectRobots then (.ok (), [])
  else
    match env.robots with
    | .allowed => (.ok (), [.robotsLoad])
    | .disallowed => (.error "Access blocked by robots.txt", [.robotsLoad])
    | .loadError msg =>
      if hasSubstr msg "blocked" then (.error msg, [.robotsLoad])
      else (.ok (), [.robotsLoad])

/-- JavaScript object spread of the downloader statistics onto the result
statistics: the downloader keys total, downloaded and failed are written
in order; the totalAssets, downloadedAssets and failedAssets keys are not
touched. -/
def spreadStats (init : List (String × Nat)) (s : DlStats) :
    List (String × Nat) :=
  mapSet (mapSet (mapSet init "total" s.total) "downloaded" s.downloaded)
    "failed" s.failed

/-! ## The literal URL rewriter

Both rewriters build, for every mapping entry, three global regexes from
the regex-escaped literal and replace with fixed double-quoted text.
Escaping every metacharacter makes each escaped atom match one literal
character, so the engine below interprets an escaped pattern by exact
character comparison, and models the character class of a quote plus the
single optional-quote backtracking point of the url pattern. -/

/-- Is this character one of the quote characters matched by the regex
character class in the patterns? -/
def isQuote (c : Char) : Bool := c == squote || c == dquote

/-- The characters escaped by the escape regex of both rewriters. -/
def regexSpecials : List Char :=
  ['.', '*', '+', '?', '^', '$', Char.ofNat 123, Char.ofNat 125,
   '(', ')', '|', '[', ']', '\\']

/-- Match an escaped-literal pattern (each atom is a plain character or a
backslash followed by the escaped character) against the input, returning
the rest of the input on success. -/
def stripEscaped : List Char → List Char → Option (List Char)
  | [], s => some s
  | '\\' :: p :: ps, c :: cs =>
    if p == c then stripEscaped ps cs else none
  | '\\' :: _ :: _, [] => none
  | p :: ps, c :: cs => if p == c then stripEscaped ps cs else none
  | _ :: _, [] => none

/-- Greedy optional quote with one backtracking point: consume a quote and
try the continuation, falling back to the continuation in place. -/
def optQuote (k : List Char → Option (List Char)) (s : List Char) :
    Option (List Char) :=
  match s with
  | c :: rest =>
    if isQuote c then
      match k rest with
      | some r => some r
      | none => k s
    else k s
  | [] => k s

/-- Match attr=, a quote, the escaped literal, a quote (the quotes need
not match each other, exactly as in the source regex). -/
def matchAttrPat (attr escLit s : List Char) : Option (List Char) :=
  match stripPre (attr ++ ['=']) s with
  | none => none
  | some s1 =>
    match s1 with
    | q1 :: s2 =>
      if isQuote q1 then
        match stripEscaped escLit s2 with
        | none => none
        | some s3 =>
          match s3 with
          | q2 :: s4 => if isQuote q2 then some s4 else none
          | [] => none
      else none
    | [] => none

/-- Match url(, an optional quote, the escaped literal, an optional quote,
then a closing parenthesis. -/
def matchUrlPat (escLit s : List Char) : Option (List Char) :=
  match stripPre ['u', 'r', 'l', '('] s with
  | none => none
  | some s1 =>
    optQuote (fun s2 =>
      match stripEscaped escLit s2 with
      | none => none
      | some s3 =>
        optQuote (fun s4 =>
          match s4 with
          | ')' :: s5 => some s5
          | _ => none) s3) s1

/-- Global regex replace: scan left to right, replace each match and
continue after it.  Every pattern used here consumes at least one
character, so fuel equal to the input length is exact. -/
def scanReplace (try1 : List Char → Option (List Char)) (repl : List Char) :
    Nat → List Char → List Char
  | _, [] => []
  | 0, s => s
  | fuel + 1, c :: rest =>
    match try1 (c :: rest) with
    | some rem => repl ++ scanReplace try1 repl fuel rem
    | none => c :: scanReplace try1 repl fuel rest

/-- One attribute replace pass: attr=[quote]LIT[quote] becomes
attr="localPath". -/
def jsReplaceAttr (attr escLit localPath html : String) : String :=
  let repl := (attr ++ "=").data ++ dquote :: localPath.data ++ [dquote]
  String.mk
    (scanReplace (matchAttrPat attr.data escLit.data) repl html.data.length
      html.data)

/-- One url() replace pass: url([quote]LIT[quote]) becomes
url("localPath"). -/
def jsReplaceUrlFn (escLit localPath html : String) : String :=
  let repl := "url(".data ++ dquote :: localPath.data ++ [dquote, ')']
  String.mk
    (scanReplace (matchUrlPat escLit.data) repl html.data.length html.data)

namespace AssetMapper

/-- The inline escape of AssetMapper.replaceAssetUrls in
src/tools/scraper.js: prefix every regex metacharacter with a
backslash. -/
def escapeRegExpScraper (s : String) : String :=
  String.mk
    ((s.data.map (fun c =>
      if regexSpecials.contains c then ['\\', c] else [c])).flatten)

/-- AssetMapper.replaceAssetUrls from src/tools/scraper.js: for every
mapping entry in order, replace src attributes, then href attributes,
then CSS url() references of the escaped literal. -/
def replaceAssetUrls (html : String) (assetMapping : List (String × String)) :
    String :=
  assetMapping.foldl (fun acc kv =>
    let esc := escapeRegExpScraper kv.1
    let s1 := jsReplaceAttr "src" esc kv.2 acc
    let s2 := jsReplaceAttr "href" esc kv.2 s1
    jsReplaceUrlFn esc kv.2 s2) html

end AssetMapper

namespace Cli

/-- escapeRegExp from src/cli.js. -/
def escapeRegExp (s : String) : String :=
  String.mk
    ((s.data.map (fun c =>
      if regexSpecials.contains c then ['\\', c] else [c])).flatten)

/-- The standalone replaceAssetUrls function from src/cli.js: same three
passes per mapping entry, with the escaping factored into escapeRegExp. -/
def replaceAssetUrls (html : String) (assetMapping : List (String × String)) :
    String :=
  assetMapping.foldl (fun acc kv =>
    let esc := escapeRegExp kv.1
    let s1 := jsReplaceAttr "src" esc kv.2 acc
    let s2 := jsReplaceAttr "href" esc kv.2 s1
    jsReplaceUrlFn esc kv.2 s2) html

end Cli

/-- WebScraper.scrape from src/tools/scraper.js: validate the URL scheme,
create the directory tree, consult robots.txt, navigate, extract, then
(optionally) download assets and capture screenshots, rewrite the markup
and persist it; any raise lands in the catch which records the message on
the result built so far.  success, accessible and scrapingAllowed are
assigned only after every step finished. -/
def scrape (p : ScrapeParams) (env : ScrapeEnv) :
    ScrapeResult × List Event :=
  let r0 := initResult p
  match urlProtocol p.url with
  | none => (errResult r0 "Invalid URL" env, [])
  | some proto =>
    if !(proto == "http:" || proto == "https:") then
      (errResult r0 "Only HTTP and HTTPS URLs are supported" env, [])
    else
      let ev1 := [Event.mkdirs]
      match checkRobotsTxt p env with
      | (.error e, evR) => (errResult r0 e env, ev1 ++ evR)
      | (.ok _, evR) =>
        match env.navigation with
        | .error e => (errResult r0 e env, ev1 ++ evR ++ [.navigate])
        | .ok page =>
          let r1 := { r0 with html := some page.html, title := some page.title }
          let ra :=
            if p.downloadAssets then
              let dl := downloadAndMapAssets env p.outputDir page.assets
              ({ r1 with assetMapping := dl.1,
                         statistics := spreadStats r1.statistics dl.2.1 },
               dl.2.2)
            else (r1, ([] : List Event))
          let rs :=
            if p.takeScreenshots then
              captureScreenshots env p.outputDir (urlHostname p.url)
            else ({ desktop := none, mobile := none }, ([] : List Event))
          let r3 := { ra.1 with screenshots := rs.1 }
          let modifiedHtml := AssetMapper.replaceAssetUrls page.html r3.assetMapping
          let evW := [Event.writeFile (joinPath p.outputDir "index.html"),
                      Event.writeFile (joinPath p.outputDir "metadata.json")]
          let stats4 := mapSet r3.statistics "processingTime" env.elapsed
          let msg := "Successfully scraped page and processed " ++
            toString (mapGetD stats4 "downloadedAssets" 0) ++ "/" ++
            toString (mapGetD stats4 "totalAssets" 0) ++ " assets in " ++
            toString env.elapsed ++ "ms"
          ({ r3 with success := true, accessible := true,
                     scrapingAllowed := true, html := some modifiedHtml,
                     statistics := stats4, message := msg },
           ev1 ++ evR ++ [.navigate] ++ ra.2 ++ rs.2 ++ evW)

/-! ## Auxiliary predicates and concrete inputs used by the theorems -/

/-- Whether an Except value is a success. -/
def exOk {α : Type} : Except String α → Bool
  | .ok _ => true
  | .error _ => false

/-- No literal of a is also a literal of b. -/
def disjointLits (a b : AssetRef) : Bool :=
  (litsOf a).all (fun k => !((litsOf b).contains k))

/-- Literals of distinct list entries never coincide.  This is the
guarantee provided upstream by the extractor: every literal is resolved
against the single page base URL, so equal literals resolve to the same
canonical URL and distinct-URL entries carry distinct literals. -/
def pairwiseDisjoint : List AssetRef → Bool
  | [] => true
  | a :: rest => rest.all (fun b => disjointLits a b) && pairwiseDisjoint rest

/-- The robots step does not throw for this run. -/
def robotsPasses (p : ScrapeParams) (env : ScrapeEnv) : Bool :=
  match checkRobotsTxt p env with
  | (.ok _, _) => true
  | (.error _, _) => false

/-- Two literal spellings of one canonical URL, as one page referencing
the same image twice (img src="x.png" and img src="/x.png") produces. -/
def assetsC1 : AssetsByCat :=
  { images := [{ url := "http://a.com/x.png", originalSrc := some "x.png" },
               { url := "http://a.com/x.png", originalSrc := some "/x.png" }] }

/-- Environment where every fetch succeeds and the disk is empty. -/
def envAllOk : ScrapeEnv :=
  { fetch := fun _ => .ok 10 }

/-- The single unique asset retained from assetsC1. -/
def refC1 : AssetRef :=
  { url := "http://a.com/x.png", originalSrc := some "x.png", type := "images" }

/-- One-image asset set for the amended-claim witness. -/
def assetsC1W : AssetsByCat :=
  { images := [{ url := "http://a.com/x.png", originalSrc := some "x.png" }] }

/-- The asset of the idempotence failing input. -/
def ref3 : AssetRef :=
  { url := "https://example.com/img.png", originalSrc := some "/img.png",
    type := "images" }

/-- Second-run environment: the disk holds exactly the file written by a
first run at Date.now() = 1700000000000 and every fetch succeeds with
2048 bytes. -/
def env3b : ScrapeEnv :=
  { existsOnDisk := fun p =>
      p == joinPath (joinPath (joinPath "out" "assets") "images")
        (generateFilename "/img.png" "images" 1700000000000),
    fetch := fun _ => .ok 2048 }

/-- Environment where the desktop capture throws and the mobile capture
would succeed. -/
def envC4a : ScrapeEnv :=
  { desktopShotOk := false, mobileShotOk := true, shotTime := 5 }

/-- Page with three distinct image references. -/
def pageC5 : PageData :=
  { title := "T", html := "<html></html>",
    assets := { images :=
      [{ url := "https://example.com/a.png", originalSrc := some "a.png" },
       { url := "https://example.com/b.png", originalSrc := some "b.png" },
       { url := "https://example.com/c.png", originalSrc := some "c.png" }] } }

/-- Environment for the three-image run where exactly the second image
404s. -/
def envC5 : ScrapeEnv :=
  { navigation := .ok pageC5,
    fetch := fun u =>
      if u == "https://example.com/b.png" then .error "HTTP 404: Not Found"
      else .ok 10 }

/-- Parameters of the three-image run. -/
def pC5 : ScrapeParams := { url := "https://example.com/" }

/-- Environment whose robots.txt load fails with an unrelated message that
happens to contain the word blocked. -/
def envC8 : ScrapeEnv :=
  { robots := .loadError "connection blocked by proxy",
    navigation := .ok pageC5 }

/-- Environment whose robots.txt load fails with an ordinary message. -/
def envC8W : ScrapeEnv :=
  { robots := .loadError "HTTP 404: Not Found",
    navigation := .ok pageC5 }

/-- Environment for the screenshot witness: everything succeeds except the
mobile capture. -/
def envC4W : ScrapeEnv :=
  { navigation := .ok pageC5, desktopShotOk := true, mobileShotOk := false,
    fetch := fun _ => .ok 10 }

/-! ## Theorems -/

/-! ## Helper lemmas -/

theorem mapGet_mapSet_self {β : Type} (m : List (String × β)) (k : String)
    (v : β) : mapGet (mapSet m k v) k = some v := by
  induction m with
  | nil => simp [mapSet, mapGet, List.find?]
  | cons p rest ih =>
    cases hpk : p.1 == k with
    | true => simp [mapSet, hpk, mapGet, List.find?]
    | false => simpa [mapSet, hpk, mapGet, List.find?] using ih

theorem mapGet_mapSet_ne {β : Type} (m : List (String × β)) (k k' : String)
    (v : β) (h : k' ≠ k) : mapGet (mapSet m k v) k' = mapGet m k' := by
  have hkk : (k == k') = false := by
    simp only [beq_eq_false_iff_ne]
    exact fun h2 => h h2.symm
  induction m with
  | nil => simp [mapSet, mapGet, List.find?, hkk]
  | cons p rest ih =>
    cases hpk : p.1 == k with
    | true =>
      have hpk1 : p.1 = k := beq_iff_eq.mp hpk
      simp [mapSet, hpk, mapGet, List.find?, hkk, hpk1]
    | false =>
      cases hpk2 : p.1 == k' with
      | true => simp [mapSet, hpk, mapGet, List.find?, hpk2]
      | false => simpa [mapSet, hpk, mapGet, List.find?, hpk2] using ih

theorem setLits_get (v : String) (ks : List String) :
    ∀ (m : List (String × String)) (k : String),
    mapGet (setLits m ks v) k = if k ∈ ks then some v else mapGet m k := by
  induction ks with
  | nil => intro m k; simp [setLits]
  | cons k0 ks ih =>
    intro m k
    have hstep : setLits m (k0 :: ks) v = setLits (mapSet m k0 v) ks v := rfl
    rw [hstep, ih]
    by_cases hk : k ∈ ks
    · simp [hk, List.mem_cons]
    · by_cases he : k = k0
      · subst he
        simp [hk, mapGet_mapSet_self]
      · simp [hk, he, mapGet_mapSet_ne _ _ _ _ he]

theorem dsa_skip (env : ScrapeEnv) (o : String) (a : AssetRef) (now : Nat)
    (h : env.existsOnDisk (joinPath (joinPath (joinPath o "assets") a.type)
      (generateFilename (urlPathname a.url) a.type now)) = true) :
    downloadSingleAsset env o a now =
      (.ok { filename := generateFilename (urlPathname a.url) a.type now,
             relativePath := relPathOf a now, size := 0 }, []) := by
  simp [downloadSingleAsset, h, relPathOf]

theorem dsa_ok_relPath (env : ScrapeEnv) (o : String) (a : AssetRef)
    (now : Nat) (r : DlOk) (evs : List Event)
    (h : downloadSingleAsset env o a now = (.ok r, evs)) :
    r.relativePath = relPathOf a now := by
  by_cases hex : env.existsOnDisk (joinPath (joinPath (joinPath o "assets")
      a.type) (generateFilename (urlPathname a.url) a.type now)) = true
  · simp [downloadSingleAsset, hex] at h
    rw [← h.1]
    simp [relPathOf]
  · cases hf : env.fetch a.url with
    | ok size =>
      simp [downloadSingleAsset, hex, hf] at h
      rw [← h.1]
      simp [relPathOf]
    | error e =>
      simp [downloadSingleAsset, hex, hf] at h

theorem downloadLoop_untouched (env : ScrapeEnv) (o : String) :
    ∀ (l : List AssetRef) (i : Nat) (m : List (String × String)) (s : DlStats)
      (k : String), (∀ b ∈ l, k ∉ litsOf b) →
    mapGet (downloadLoop env o l i m s).1 k = mapGet m k := by
  intro l
  induction l with
  | nil => intro i m s k _; simp [downloadLoop]
  | cons a rest ih =>
    intro i m s k h
    simp only [downloadLoop]
    split
    · rename_i r evs heq
      have hrest : ∀ b ∈ rest, k ∉ litsOf b := fun b hb => h b (by simp [hb])
      have hset : k ∉ litsOf a := h a (by simp)
      simp only []
      rw [ih _ _ _ _ hrest, setLits_get]
      simp [hset]
    · rename_i e evs heq
      have hrest : ∀ b ∈ rest, k ∉ litsOf b := fun b hb => h b (by simp [hb])
      exact ih _ _ _ _ hrest

theorem downloadLoop_stats (env : ScrapeEnv) (o : String) :
    ∀ (l : List AssetRef) (i : Nat) (m : List (String × String)) (s : DlStats),
    (downloadLoop env o l i m s).2.1.downloaded +
      (downloadLoop env o l i m s).2.1.failed =
      s.downloaded + s.failed + l.length ∧
    (downloadLoop env o l i m s).2.1.total = s.total := by
  intro l
  induction l with
  | nil => intro i m s; simp [downloadLoop]
  | cons a rest ih =>
    intro i m s
    simp only [downloadLoop]
    split
    · rename_i r evs heq
      have h2 := ih (i + 1) (setLits m (litsOf a) r.relativePath)
        { s with downloaded := s.downloaded + 1 }
      have h3 := h2.1
      have h4 := h2.2
      dsimp only at h3 h4
      refine ⟨?_, ?_⟩
      · simp only [List.length_cons]
        omega
      · exact h4
    · rename_i e evs heq
      have h2 := ih (i + 1) m { s with failed := s.failed + 1 }
      have h3 := h2.1
      have h4 := h2.2
      dsimp only at h3 h4
      refine ⟨?_, ?_⟩
      · simp only [List.length_cons]
        omega
      · exact h4

/-- The statistics of every downloader run partition the unique assets:
downloaded plus failed equals total. -/
theorem downloadStats_partition (env : ScrapeEnv) (o : String)
    (assets : AssetsByCat) :
    (downloadAndMapAssets env o assets).2.1.downloaded +
      (downloadAndMapAssets env o assets).2.1.failed =
      (downloadAndMapAssets env o assets).2.1.total := by
  unfold downloadAndMapAssets
  have h := downloadLoop_stats env o (removeDuplicates (flattenAssets assets))
    0 [] { total := (removeDuplicates (flattenAssets assets)).length,
           downloaded := 0, failed := 0 }
  rw [h.1, h.2]
  simp

theorem downloadLoop_maps (env : ScrapeEnv) (o : String) :
    ∀ (l : List AssetRef), pairwiseDisjoint l = true →
    ∀ (i : Nat) (m : List (String × String)) (s : DlStats) (j : Nat)
      (a : AssetRef), l[j]? = some a →
    exOk (downloadSingleAsset env o a (env.timeAt (i + j))).1 = true →
    ∀ k, k ∈ litsOf a →
    mapGet (downloadLoop env o l i m s).1 k =
      some (relPathOf a (env.timeAt (i + j))) := by
  intro l
  induction l with
  | nil =>
    intro _ i m s j a hj
    simp at hj
  | cons a0 rest ih =>
    intro hdisj i m s j a hj hok k hk
    have hd1 : rest.all (fun b => disjointLits a0 b) = true ∧
        pairwiseDisjoint rest = true := by
      simpa [pairwiseDisjoint, Bool.and_eq_true] using hdisj
    cases j with
    | zero =>
      have ha : a0 = a := by simpa using hj
      subst ha
      rw [Nat.add_zero] at hok ⊢
      simp only [downloadLoop]
      split
      · rename_i r evs heq
        have hrest : ∀ b ∈ rest, k ∉ litsOf b := by
          intro b hb
          have hall := (List.all_eq_true.mp hd1.1) b hb
          simp only [disjointLits, List.all_eq_true] at hall
          have hck := hall k hk
          simp only [Bool.not_eq_true'] at hck
          intro hkb
          have hc2 : (litsOf b).contains k = true :=
            List.elem_eq_true_of_mem hkb
          rw [hc2] at hck
          cases hck
        rw [downloadLoop_untouched env o rest (i + 1) _ _ k hrest, setLits_get]
        simp only [hk, if_pos]
        rw [dsa_ok_relPath env o a0 (env.timeAt i) r evs heq]
      · rename_i e evs heq
        rw [heq] at hok
        simp [exOk] at hok
    | succ j2 =>
      have hj2 : rest[j2]? = some a := by simpa using hj
      have harith : i + (j2 + 1) = (i + 1) + j2 := by omega
      rw [harith] at hok ⊢
      simp only [downloadLoop]
      split
      · rename_i r evs heq
        exact ih hd1.2 (i + 1) _ _ j2 a hj2 hok k hk
      · rename_i e evs heq
        exact ih hd1.2 (i + 1) _ _ j2 a hj2 hok k hk

theorem md5hexChars_length (msg : List Nat) : (md5hexChars msg).length = 32 := by
  simp [md5hexChars, word2hexLE]

theorem md5hex8L_length (s : List Char) : (md5hex8L s).length = 8 := by
  simp [md5hex8L, md5hexChars_length]

/-- C1 (amended): for the retained (first-occurring) reference of each
canonical URL, a successful download registers every literal of that
reference, all mapped to the identical local relative path. -/
theorem C1_amended_theorem (env : ScrapeEnv) (o : String)
    (assets : AssetsByCat) (j : Nat) (a : AssetRef)
    (hdisj : pairwiseDisjoint (removeDuplicates (flattenAssets assets)) = true)
    (hj : (removeDuplicates (flattenAssets assets))[j]? = some a)
    (hok : exOk (downloadSingleAsset env o a (env.timeAt j)).1 = true)
    (k : String) (hk : k ∈ litsOf a) :
    mapGet (downloadAndMapAssets env o assets).1 k =
      some (relPathOf a (env.timeAt j)) := by
  unfold downloadAndMapAssets
  have h0 : env.timeAt j = env.timeAt (0 + j) := by rw [Nat.zero_add]
  rw [h0] at hok ⊢
  exact downloadLoop_maps env o _ hdisj 0 [] _ j a hj hok k hk

theorem C1_witness :
    mapGet (downloadAndMapAssets envAllOk "out" assetsC1W).1 "x.png" =
      some (relPathOf refC1 (envAllOk.timeAt 0)) ∧
    mapGet (downloadAndMapAssets envAllOk "out" assetsC1W).1
        "http://a.com/x.png" =
      some (relPathOf refC1 (envAllOk.timeAt 0)) :=
  ⟨C1_amended_theorem envAllOk "out" assetsC1W 0 refC1 (by decide) (by decide)
     (by decide) "x.png" (by decide),
   C1_amended_theorem envAllOk "out" assetsC1W 0 refC1 (by decide) (by decide)
     (by decide) "http://a.com/x.png" (by decide)⟩

theorem C1_counterexample :
    assetsC1.images.map (fun r => r.url) =
      ["http://a.com/x.png", "http://a.com/x.png"] ∧
    ("x.png" : String) ≠ "/x.png" ∧
    (downloadAndMapAssets envAllOk "out" assetsC1).2.1.downloaded = 1 ∧
    (mapGet (downloadAndMapAssets envAllOk "out" assetsC1).1 "x.png").isSome =
      true ∧
    mapGet (downloadAndMapAssets envAllOk "out" assetsC1).1 "/x.png" = none := by
  decide

/-- C2 (amended): filenames differ whenever the chosen extensions agree
and the truncated digests of path-plus-timestamp differ. -/
theorem C2_amended_theorem (p1 p2 ty1 ty2 : String) (t1 t2 : Nat)
    (hext : extFor p1 ty1 = extFor p2 ty2)
    (hhash : md5hex8L (p1.data ++ (toString t1).data) ≠
      md5hex8L (p2.data ++ (toString t2).data)) :
    generateFilename p1 ty1 t1 ≠ generateFilename p2 ty2 t2 := by
  intro he
  apply hhash
  have hd : generateFilenameL p1.data ty1 t1 = generateFilenameL p2.data ty2 t2 :=
    congrArg String.data he
  unfold generateFilenameL at hd
  simp only [show ∀ s : String, String.mk s.data = s from fun _ => rfl] at hd
  rw [hext] at hd
  obtain ⟨hA, _⟩ := List.append_inj' hd rfl
  have hlen2 : ('-' :: md5hex8L (p1.data ++ (toString t1).data)).length =
      ('-' :: md5hex8L (p2.data ++ (toString t2).data)).length := by
    simp [md5hex8L_length]
  obtain ⟨_, hB⟩ := List.append_inj' hA hlen2
  injection hB with _ hC

theorem C2_witness :
    generateFilename "/a.png" "images" 0 ≠ generateFilename "/b.png" "images" 0 :=
  C2_amended_theorem "/a.png" "/b.png" "images" "images" 0 0 (by decide)
    (by decide)

theorem C2_counterexample :
    ("http://a.com/img.png" : String) ≠ "http://b.com/img.png" ∧
    generateFilename (urlPathname "http://a.com/img.png") "images"
        1700000000000 =
      generateFilename (urlPathname "http://b.com/img.png") "images"
        1700000000000 := by
  constructor
  · decide
  · rfl

/-- C9: rewriting with an empty mapping is the identity. -/
theorem C9_empty_mapping_theorem (html : String) :
    AssetMapper.replaceAssetUrls html [] = html := rfl

/-- C10: the two rewriters compute the same function. -/
theorem C10_rewriters_equal (html : String)
    (assetMapping : List (String × String)) :
    AssetMapper.replaceAssetUrls html assetMapping =
      Cli.replaceAssetUrls html assetMapping := rfl

/-- C3: the skip-if-present logic works only when the generated filename
matches, but the filename hashes Date.now(), so a re-run at any later
timestamp computes a fresh filename, misses the file written by the first
run, and fetches again (size 2048 here, with fetch and write effects),
while only a run at the very same timestamp would skip. -/
theorem C3_code_bug_eval :
    generateFilename "/img.png" "images" 1700000000000 ≠
      generateFilename "/img.png" "images" 1700000000001 ∧
    (downloadSingleAsset env3b "out" ref3 1700000000001).2 =
      [Event.assetFetch "https://example.com/img.png",
       Event.writeFile (joinPath (joinPath (joinPath "out" "assets") "images")
         (generateFilename "/img.png" "images" 1700000000001))] ∧
    (downloadSingleAsset env3b "out" ref3 1700000000001).1.toOption =
      some { filename := generateFilename "/img.png" "images" 1700000000001,
             relativePath := joinPath (joinPath "assets" "images")
               (generateFilename "/img.png" "images" 1700000000001),
             size := 2048 } ∧
    (downloadSingleAsset env3b "out" ref3 1700000000000).2 = [] ∧
    (downloadSingleAsset env3b "out" ref3 1700000000000).1.toOption =
      some { filename := generateFilename "/img.png" "images" 1700000000000,
             relativePath := joinPath (joinPath "assets" "images")
               (generateFilename "/img.png" "images" 1700000000000),
             size := 0 } := by
  decide

theorem C4_counterexample :
    envC4a.mobileShotOk = true ∧
    (captureScreenshots envC4a "out" "example.com").1 =
      { desktop := none, mobile := none } := by
  decide

/-- C4 (amended): screenshot failures never abort the snapshot and a
mobile failure leaves the desktop slot intact, but the captures share one
guard: a desktop failure also leaves the mobile slot null. -/
theorem C4_amended_theorem (p : ScrapeParams) (env : ScrapeEnv)
    (page : PageData)
    (hp : urlProtocol p.url = some "https:" ∨ urlProtocol p.url = some "http:")
    (hrob : robotsPasses p env = true)
    (hn : env.navigation = Except.ok page)
    (hts : p.takeScreenshots = true) :
    (scrape p env).1.success = true ∧
    (env.desktopShotOk = true → env.mobileShotOk = false →
      (scrape p env).1.screenshots =
        { desktop := some (joinPath (joinPath p.outputDir "screenshots")
            (urlHostname p.url ++ "-desktop-" ++ toString env.shotTime ++
              ".png")),
          mobile := none }) ∧
    (env.desktopShotOk = false →
      (scrape p env).1.screenshots = { desktop := none, mobile := none }) := by
  have hcr : ∃ evs, checkRobotsTxt p env = (Except.ok (), evs) := by
    unfold robotsPasses at hrob
    rcases h : checkRobotsTxt p env with ⟨res, evs⟩
    cases res with
    | ok u => cases u; exact ⟨evs, rfl⟩
    | error e => rw [h] at hrob; simp at hrob
  obtain ⟨evR, hcr⟩ := hcr
  refine ⟨?_, ?_, ?_⟩
  · rcases hp with hp | hp <;> simp [scrape, hp, hcr, hn]
  · intro hd hm
    rcases hp with hp | hp <;>
      simp [scrape, hp, hcr, hn, hts, captureScreenshots, hd, hm]
  · intro hd
    rcases hp with hp | hp <;>
      simp [scrape, hp, hcr, hn, hts, captureScreenshots, hd]

theorem C4_witness :
    (scrape pC5 envC4W).1.success = true ∧
    (scrape pC5 envC4W).1.screenshots =
      { desktop := some (joinPath (joinPath pC5.outputDir "screenshots")
          (urlHostname pC5.url ++ "-desktop-" ++ toString envC4W.shotTime ++
            ".png")),
        mobile := none } := by
  have h := C4_amended_theorem pC5 envC4W pageC5 (Or.inl (by decide))
    (by decide) (by rfl) (by decide)
  exact ⟨h.1, h.2.1 (by decide) (by decide)⟩

/-- C5: the downloader isolates the 404 (stats total 3, downloaded 2,
failed 1, success stays true), but the merge into the surfaced statistics
object uses the keys total, downloaded and failed, leaving totalAssets,
downloadedAssets and failedAssets at 0, so the result and the success
message contradict the documented output contract. -/
theorem C5_code_bug_eval :
    (scrape pC5 envC5).1.success = true ∧
    mapGet (scrape pC5 envC5).1.statistics "total" = some 3 ∧
    mapGet (scrape pC5 envC5).1.statistics "downloaded" = some 2 ∧
    mapGet (scrape pC5 envC5).1.statistics "failed" = some 1 ∧
    mapGet (scrape pC5 envC5).1.statistics "totalAssets" = some 0 ∧
    mapGet (scrape pC5 envC5).1.statistics "downloadedAssets" = some 0 ∧
    mapGet (scrape pC5 envC5).1.statistics "failedAssets" = some 0 ∧
    (scrape pC5 envC5).1.message =
      "Successfully scraped page and processed 0/0 assets in 0ms" := by
  decide

/-- C6: a non-http(s) scheme aborts before any effect with the validation
message, success and accessible stay false. -/
theorem C6_validation_theorem (p : ScrapeParams) (env : ScrapeEnv)
    (s : String) (hp : urlProtocol p.url = some s)
    (h1 : s ≠ "http:") (h2 : s ≠ "https:") :
    (scrape p env).1.success = false ∧
    (scrape p env).1.accessible = false ∧
    (scrape p env).1.message =
      "Scraping error: Only HTTP and HTTPS URLs are supported" ∧
    (scrape p env).2 = [] := by
  have hb1 : (s == "http:") = false := by
    simp only [beq_eq_false_iff_ne]; exact h1
  have hb2 : (s == "https:") = false := by
    simp only [beq_eq_false_iff_ne]; exact h2
  simp [scrape, hp, hb1, hb2, errResult, initResult]

theorem C6_witness :
    (scrape { url := "ftp://example.com/file" } envAllOk).1.success = false ∧
    (scrape { url := "ftp://example.com/file" } envAllOk).1.accessible = false ∧
    (scrape { url := "ftp://example.com/file" } envAllOk).1.message =
      "Scraping error: Only HTTP and HTTPS URLs are supported" ∧
    (scrape { url := "ftp://example.com/file" } envAllOk).2 = [] :=
  C6_validation_theorem { url := "ftp://example.com/file" } envAllOk "ftp:"
    (by decide) (by decide) (by decide)

/-- C7: a robots disallow aborts with scrapingAllowed and success false
and the only effects are directory creation and the robots load. -/
theorem C7_robots_block_theorem (p : ScrapeParams) (env : ScrapeEnv)
    (hp : urlProtocol p.url = some "https:" ∨ urlProtocol p.url = some "http:")
    (hrr : p.respectRobots = true)
    (hrob : env.robots = RobotsOutcome.disallowed) :
    (scrape p env).1.scrapingAllowed = false ∧
    (scrape p env).1.success = false ∧
    (scrape p env).1.message = "Scraping error: Access blocked by robots.txt" ∧
    (scrape p env).2 = [Event.mkdirs, Event.robotsLoad] := by
  have hcr : checkRobotsTxt p env =
      (Except.error "Access blocked by robots.txt", [Event.robotsLoad]) := by
    simp [checkRobotsTxt, hrr, hrob]
  rcases hp with hp | hp <;>
    simp [scrape, hp, hcr, errResult, initResult]

theorem C7_witness :
    (scrape pC5 { envAllOk with robots := .disallowed }).1.scrapingAllowed =
      false ∧
    (scrape pC5 { envAllOk with robots := .disallowed }).1.success = false ∧
    (scrape pC5 { envAllOk with robots := .disallowed }).1.message =
      "Scraping error: Access blocked by robots.txt" ∧
    (scrape pC5 { envAllOk with robots := .disallowed }).2 =
      [Event.mkdirs, Event.robotsLoad] :=
  C7_robots_block_theorem pC5 { envAllOk with robots := .disallowed }
    (Or.inl (by decide)) (by decide) (by decide)

theorem C8_counterexample :
    hasSubstr "connection blocked by proxy" "blocked" = true ∧
    envC8.robots = RobotsOutcome.loadError "connection blocked by proxy" ∧
    exOk envC8.navigation = true ∧
    (scrape pC5 envC8).1.success = false ∧
    (scrape pC5 envC8).2 = [Event.mkdirs, Event.robotsLoad] := by
  decide

/-- C8 (amended): a robots.txt load failure is fail-open and the scrape
proceeds to navigation, unless the load error message contains the
substring blocked, which the catch mistakes for its own disallow error. -/
theorem C8_amended_theorem (p : ScrapeParams) (env : ScrapeEnv) (msg : String)
    (hp : urlProtocol p.url = some "https:" ∨ urlProtocol p.url = some "http:")
    (hrr : p.respectRobots = true)
    (hrob : env.robots = RobotsOutcome.loadError msg)
    (hmsg : hasSubstr msg "blocked" = false) :
    Event.navigate ∈ (scrape p env).2 := by
  have hcr : checkRobotsTxt p env = (Except.ok (), [Event.robotsLoad]) := by
    simp [checkRobotsTxt, hrr, hrob, hmsg]
  rcases hp with hp | hp <;>
  · cases hn : env.navigation with
    | error e => simp [scrape, hp, hcr, hn]
    | ok page => simp [scrape, hp, hcr, hn]

theorem C8_witness :
    Event.navigate ∈ (scrape pC5 envC8W).2 :=
  C8_amended_theorem pC5 envC8W "HTTP 404: Not Found" (Or.inl (by decide))
    (by decide) (by decide) (by decide)
